import Mathlib

/-!
Verification of the gossAIP repository: a browser game serving one real
forum excerpt and one machine-generated fabrication per round.

The JavaScript/TypeScript sources are shallowly embedded below.
JS numbers are modelled as rationals (ℚ), JS `undefined`/missing fields as
`Option`, JS exceptions as `Except`, and each network or random effect as an
explicit parameter (the observed response, the drawn random indices, the
current clock reading `Date.now()`).

Namespaces:
* `ApiRoute`    — the main API route (src/unnamed/part_001): engagement
  scoring, Reddit search filtering, story generation, shuffling, GET handler.
* `RedditRoute` — the earlier route (src/src/app/api/reddit/route.ts,
  duplicated as src/unnamed/part_000): its engagement scorer and filter.
* `Client`      — the game page (src/unnamed/part_002): local-storage purge
  of seen-story ids and the fetch-response validation.
-/

namespace GossAIP

/-- JS `hay.startsWith(needle)` on character lists: `needle` is an initial
segment of `hay`. -/
def listStartsWith [DecidableEq α] : List α → List α → Bool
  | _, [] => true
  | [], _ :: _ => false
  | a :: as, b :: bs => decide (b = a) && listStartsWith as bs

/-- JS `hay.includes(needle)` on character lists: `needle` occurs as a
contiguous subsequence of `hay`. -/
def listContainsSeq [DecidableEq α] : List α → List α → Bool
  | [], needle => needle.isEmpty
  | a :: t, needle => listStartsWith (a :: t) needle || listContainsSeq t needle

/-- JS `String.prototype.includes`. -/
def jsIncludes (hay needle : String) : Bool :=
  listContainsSeq hay.toList needle.toList

/-- JS `String.prototype.toLowerCase` (ASCII, which is all the embedded
code compares). -/
def jsToLower (s : String) : String :=
  String.mk (s.toList.map Char.toLower)

/-- Splits a character list at every single occurrence of `sep`, matching
JS `String.prototype.split(sep)` with a one-character separator: adjacent
separators yield empty segments. -/
def splitOnChar (sep : Char) : List Char → List (List Char)
  | [] => [[]]
  | c :: rest =>
    let r := splitOnChar sep rest
    if c = sep then [] :: r
    else
      match r with
      | seg :: segs => (c :: seg) :: segs
      | [] => [[c]]

/-- JS `s.split(' ')` on strings. -/
def jsSplitOnSpace (s : String) : List String :=
  (splitOnChar ' ' s.toList).map String.mk

/-- JS string-valued `a || b`: an absent value and the empty string are falsy. -/
def jsStrOr (a b : Option String) : Option String :=
  match a with
  | some s => if s = "" then b else some s
  | none => b

/-- JS `Array.prototype.findIndex`: index of the first match, `-1` if none. -/
def jsFindIndex (p : α → Bool) (l : List α) : Int :=
  match l.findIdx? p with
  | some i => (i : Int)
  | none => -1

/-- A Reddit post as consumed by the routes.  Fields that the code guards
with `|| 0`, `?.` or truthiness checks are `Option`-valued; `upvoteRatio`
embeds the JS field `upvote_ratio`. -/
structure Post where
  title : String
  selftext : Option String
  score : Option ℚ
  num_comments : Option ℚ
  upvoteRatio : Option ℚ
  total_awards_received : Option ℚ
  controversiality : Option ℚ
  created_utc : ℚ
  permalink : String
  subreddit : String
  id : String
deriving Repr, DecidableEq

/-- The `data` payload of a fetched Reddit comment (flat model; the main
route never recurses into replies). -/
structure CommentData where
  score : Option ℚ
  body : Option String
  total_awards_received : Option ℚ
deriving Repr, DecidableEq

/-- A fetched Reddit comment wrapper: `comment?.data` may be absent. -/
structure Comment where
  data : Option CommentData
deriving Repr, DecidableEq

namespace ApiRoute

/-- Embeds `hoursOld` from the main route: `(Date.now() / 1000 - timestamp)
/ 3600`, with the clock reading `now` (milliseconds) passed explicitly. -/
def hoursOld (now : ℚ) (timestamp : ℚ) : ℚ :=
  (now / 1000 - timestamp) / 3600

/-- Component `upvoteScore: score * 1.0` of `calculateEngagementScore`,
where `score` is `post.score || 0`. -/
def upvoteScoreComponent (post : Post) : ℚ :=
  post.score.getD 0 * 1.0

/-- Component `commentCount: commentCount * 2.0`, where `commentCount`
is `post.num_comments || 0`. -/
def commentCountComponent (post : Post) : ℚ :=
  post.num_comments.getD 0 * 2.0

/-- Component `controversyBonus: post.upvote_ratio ? (post.upvote_ratio -
0.5) * 100 : 0` (a missing or zero ratio is falsy). -/
def controversyBonusComponent (post : Post) : ℚ :=
  match post.upvoteRatio with
  | some r => if r = 0 then 0 else (r - 0.5) * 100
  | none => 0

/-- Component `awards: (post.total_awards_received || 0) * 10`. -/
def awardsComponent (post : Post) : ℚ :=
  post.total_awards_received.getD 0 * 10

/-- Component `freshness: Math.max(0, 100 - hoursOld(post.created_utc)) * 2`. -/
def freshnessComponent (now : ℚ) (post : Post) : ℚ :=
  max 0 (100 - hoursOld now post.created_utc) * 2

/-- Comments passing `comment => comment?.data?.score > 20` (an absent
`data` or `score` compares as `undefined > 20`, which is false). -/
def qualifyingComments (comments : List Comment) : List CommentData :=
  (comments.filterMap (·.data)).filter
    (fun c => match c.score with
      | some s => decide (20 < s)
      | none => false)

/-- Component `commentQuality: avgCommentScore * 0.5 + avgCommentLength *
0.01`, the averages taken over `qualifyingComments` with the divisor
`(commentScores.length || 1)`; a comment body is `(body || '')`. -/
def commentQualityComponent (comments : List Comment) : ℚ :=
  let cs := qualifyingComments comments
  let n : ℚ := if cs.length = 0 then 1 else (cs.length : ℚ)
  let avgCommentScore := (cs.map (fun c => c.score.getD 0)).sum / n
  let avgCommentLength := (cs.map (fun c => ((c.body.getD "").length : ℚ))).sum / n
  avgCommentScore * 0.5 + avgCommentLength * 0.01

/-- Embeds `calculateEngagementScore` of the main route: the sum of the
`components` object values (upvote score, comment count, controversy bonus,
awards, freshness, comment quality).  The clock reading `now` feeds the
freshness term through `hoursOld`. -/
def calculateEngagementScore (now : ℚ) (post : Post) (comments : List Comment) : ℚ :=
  upvoteScoreComponent post + commentCountComponent post +
    controversyBonusComponent post + awardsComponent post +
    freshnessComponent now post + commentQualityComponent comments

end ApiRoute

namespace RedditRoute

/-- A comment tree node for the earlier route's scorer.  A node whose JS
`comment?.data?.score` is absent is modelled with `score = none`; absent
`replies?.data?.children` is modelled as the empty list. -/
inductive RComment : Type where
  | node (score : Option ℚ) (replies : List RComment)
deriving Repr

mutual

/-- Embeds the `processComment` closure of the earlier route's
`calculateEngagementScore`: accumulates (total comment score, maximum
depth reached, count of comments with score above 100) over a comment and
its replies, recursing only when `comment?.data?.score` is truthy. -/
def processComment : RComment → ℕ → ℚ × ℕ × ℕ
  | .node none _, _ => (0, 0, 0)
  | .node (some s) replies, depth =>
      if s = 0 then (0, 0, 0)
      else
        let rest := processCommentList replies (depth + 1)
        (s + rest.1, max depth rest.2.1, (if 100 < s then 1 else 0) + rest.2.2)

/-- Folds `processComment` over a list of sibling comments at one depth,
matching the `forEach` loops of the earlier route. -/
def processCommentList : List RComment → ℕ → ℚ × ℕ × ℕ
  | [], _ => (0, 0, 0)
  | c :: rest, depth =>
      let a := processComment c depth
      let b := processCommentList rest depth
      (a.1 + b.1, max a.2.1 b.2.1, a.2.2 + b.2.2)

end

/-- Embeds `calculateEngagementScore` of src/src/app/api/reddit/route.ts:
a weighted sum of post score, comment count, average comment score,
maximum discussion depth, popular-comment count and controversiality. -/
def calculateEngagementScore (post : Post) (comments : List RComment) : ℚ :=
  let postScore := post.score.getD 0
  let commentCount := post.num_comments.getD 0
  let controversialityScore := post.controversiality.getD 0
  let acc := processCommentList comments 0
  let totalCommentScore := acc.1
  let maxCommentDepth := acc.2.1
  let topCommentCount := acc.2.2
  let avgCommentScore :=
    if 0 < comments.length then totalCommentScore / (comments.length : ℚ) else 0
  postScore * 0.4 + commentCount * 0.2 + avgCommentScore * 0.2 +
    (maxCommentDepth : ℚ) * 50 + (topCommentCount : ℚ) * 100 +
    controversialityScore * 50

end RedditRoute

/-- Bool test for the characters of the JS sentence-splitting regex `[.!?]+`. -/
def isSentenceDelim (c : Char) : Bool :=
  c = '.' || c = '!' || c = '?'

/-- Splits a character list at maximal runs of sentence delimiters, matching
JS `String.prototype.split(/[.!?]+/)`: consecutive delimiters produce one
boundary, while a leading or trailing delimiter yields an empty segment. -/
def splitDelimChars : List Char → List (List Char)
  | [] => [[]]
  | c :: rest =>
    let r := splitDelimChars rest
    if isSentenceDelim c then
      match rest with
      | d :: _ => if isSentenceDelim d then r else [] :: r
      | [] => [] :: r
    else
      match r with
      | seg :: segs => (c :: seg) :: segs
      | [] => [[c]]

/-- JS `s.split(/[.!?]+/)` on strings. -/
def splitSentencesJs (s : String) : List String :=
  (splitDelimChars s.toList).map (fun cs => String.mk cs)

/-- The `knownFigures` list shared verbatim by `extractMainSubject` in both
route versions. -/
def knownFigures : List String :=
  ["elon musk", "taylor swift", "kanye", "kardashian", "trump",
   "biden", "beyonce", "drake", "zuckerberg", "gates"]

/-- A thrown JS runtime error (the only kind the embedded code can raise). -/
inductive JsError where
  | typeError
deriving Repr, DecidableEq

/-- Embeds `extractMainSubject` (identical in both route files): first scan
`knownFigures` for a substring of the lowercased topic; otherwise keep the
space-separated words whose first character equals its own uppercasing —
evaluating `word[0].toUpperCase()` on an empty word dereferences
`undefined` and throws a `TypeError`; otherwise fall back to the first two
lowercased words longer than three characters. -/
def extractMainSubject (topic : String) : Except JsError String :=
  let words := jsSplitOnSpace (jsToLower topic)
  match knownFigures.find? (fun figure => jsIncludes (jsToLower topic) figure) with
  | some figure => .ok figure
  | none => do
      let kept ← (jsSplitOnSpace topic).filterM (fun word =>
        match word.toList with
        | [] => Except.error JsError.typeError
        | c :: _ => Except.ok (decide (c = c.toUpper)))
      let properNouns := String.intercalate " " kept
      if properNouns ≠ "" then
        return properNouns
      else
        return String.intercalate " "
          ((words.take 2).filter (fun word => decide (3 < word.length)))

/-- Swaps the entries at positions `i` and `j`, leaving the list unchanged
when either index is out of range — the JS destructuring swap
`[a[i], a[j]] = [a[j], a[i]]` for in-range indices. -/
def listSwap (l : List α) (i j : ℕ) : List α :=
  match l.get? i, l.get? j with
  | some a, some b => (l.set i b).set j a
  | _, _ => l

/-- The Fisher-Yates loop of `shuffleArray` (identical in both route files):
`i` counts down from `array.length - 1` to `1`, swapping position `i` with
the drawn index `j = Math.floor(Math.random() * (i + 1))`.  The random
draws are passed explicitly as the list `js`, consumed one per iteration. -/
def fisherYatesAux : List α → ℕ → List ℕ → List α
  | l, 0, _ => l
  | l, _ + 1, [] => l
  | l, i + 1, j :: rest => fisherYatesAux (listSwap l (i + 1) j) i rest

/-- Embeds `shuffleArray`: copies the array and runs the Fisher-Yates loop
with the explicit random draws `js`. -/
def shuffleArray (l : List α) (js : List ℕ) : List α :=
  fisherYatesAux l (l.length - 1) js

namespace ApiRoute

/-- The `gossipIndicators` keyword list, repeated verbatim in `searchReddit`
and `formatRedditGossip` of the main route. -/
def gossipIndicators : List String :=
  ["rumor", "allegedly", "sources say", "insider", "exclusive",
   "spotted", "claims", "reveals", "drama", "scandal", "tea",
   "dating", "breakup", "split", "cheating", "divorce",
   "announcement", "confirmed", "denied", "source close to"]

/-- The lowercased `post.title + ' ' + (post.selftext || '')` both route
versions search in. -/
def postSearchContent (post : Post) : String :=
  jsToLower (post.title ++ " " ++ post.selftext.getD "")

/-- `searchTerms.some(term => content.includes(term))`: the content contains
at least one space-separated token of the lowercased query. -/
def containsQueryToken (query : String) (post : Post) : Bool :=
  (jsSplitOnSpace (jsToLower query)).any
    (fun term => jsIncludes (postSearchContent post) term)

/-- `gossipIndicators.some(indicator => content.includes(indicator))`. -/
def containsGossipIndicator (post : Post) : Bool :=
  gossipIndicators.any (fun indicator => jsIncludes (postSearchContent post) indicator)

/-- `post.selftext?.length > 100 || post.num_comments > 10`; a missing
field compares as `undefined`, which is false. -/
def hasSubstantialContent (post : Post) : Bool :=
  (match post.selftext with
   | some t => decide (100 < t.length)
   | none => false) ||
  (match post.num_comments with
   | some n => decide (10 < n)
   | none => false)

/-- The relevance filter at the end of the main route's `searchReddit`:
keep a post when its content contains a query token AND it either shows a
gossip indicator or is substantial. -/
def searchRedditFilter (query : String) (allPosts : List Post) : List Post :=
  allPosts.filter (fun post =>
    containsQueryToken query post &&
      (containsGossipIndicator post || hasSubstantialContent post))

end ApiRoute

namespace RedditRoute

/-- The relevance filter at the end of the earlier route's `searchReddit`:
keep a post when its content contains at least one query token. -/
def searchRedditFilter (query : String) (posts : List Post) : List Post :=
  posts.filter (fun post => ApiRoute.containsQueryToken query post)

end RedditRoute

namespace ApiRoute

/-- A post as returned by the main route's `fetchRedditPosts`: the raw post
spread together with the derived engagement score, extracted top comments,
resolved main subject and partial-match flag. -/
structure EnrichedPost extends Post where
  engagementScore : Option ℚ
  topComments : List String
  mainSubject : String
  isPartialMatch : Bool
deriving Repr, DecidableEq

/-- The derived identifier `` `${post.subreddit}_${post.id}` `` used by the
de-duplication filter and the real story's `storyId`. -/
def storyIdOf (p : EnrichedPost) : String :=
  p.subreddit ++ "_" ++ p.id

/-- A story object of the main route's response.  JS object keys that are
absent or set to `undefined` (dropped by JSON serialization) are `none`. -/
structure Story where
  content : String
  isReal : Bool
  redditUrl : Option String
  engagementScore : Option ℚ
  isPartialMatch : Bool
  mainSubject : String
  subreddit : Option String
  storyId : String
deriving Repr, DecidableEq

/-- `generateStories` passes the `topComments` string array where comment
objects are expected; a JS string has no `.data` field, so every element
behaves as a comment with absent data. -/
def asCommentObjects (topComments : List String) : List Comment :=
  topComments.map (fun _ => { data := none })

/-- Comments passing `comment?.data?.score > 50` in `formatRedditGossip`,
mapped to their (possibly absent) bodies, first three kept. -/
def relevantCommentBodies (comments : List Comment) : List (Option String) :=
  (((comments.filter (fun c =>
      match c.data with
      | some d => match d.score with
        | some s => decide (50 < s)
        | none => false
      | none => false)).map (fun c => c.data.bind (·.body))).take 3)

/-- The sentence list of `formatRedditGossip`: content split on `[.!?]+`,
trimmed, kept when longer than 20 characters and free of the lowercased
words "submission" and "posted". -/
def filteredSentences (postContent : String) : List String :=
  ((splitSentencesJs postContent).map String.trim).filter
    (fun s => decide (20 < s.length) &&
      !(jsIncludes (jsToLower s) "submission") && !(jsIncludes (jsToLower s) "posted"))

/-- The per-sentence score of `formatRedditGossip`: two points per gossip
indicator contained in the lowercased sentence, plus one when the sentence
exceeds 100 characters. -/
def sentenceScore (sentence : String) : ℕ :=
  (gossipIndicators.filter (fun indicator =>
    jsIncludes (jsToLower sentence) indicator)).length * 2 +
    (if 100 < sentence.length then 1 else 0)

/-- Stable descending sort by score, the behaviour of JS
`sort((a, b) => b.score - a.score)`: `a` stays before `b` exactly when
`b.score - a.score <= 0`. -/
def sortByScoreDesc (l : List (α × ℚ)) : List (α × ℚ) :=
  l.insertionSort (fun a b => b.2 ≤ a.2)

/-- Stable descending sort for natural-number sentence scores. -/
def sortBySentenceScoreDesc (l : List (String × ℕ)) : List (String × ℕ) :=
  l.insertionSort (fun a b => b.2 ≤ a.2)

/-- Embeds `formatRedditGossip` of the main route: extract the best-scored
gossip-like sentences of `post.selftext || post.title`, pad from highly
upvoted comments when fewer than two sentences survive, and otherwise fall
back to the title followed by the first surviving sentence. -/
def formatRedditGossip (post : Post) (comments : List Comment) : String :=
  let postContent := match post.selftext with
    | some t => if t = "" then post.title else t
    | none => post.title
  let relevantComments := relevantCommentBodies comments
  let sentences := filteredSentences postContent
  let scoredSentences := sentences.map (fun sentence => (sentence, sentenceScore sentence))
  let bestSentences := ((sortBySentenceScoreDesc scoredSentences).take 3).map (·.1)
  let commentSentences :=
    if bestSentences.length < 2 && 0 < relevantComments.length then
      ((((splitSentencesJs
            (String.intercalate " " (relevantComments.map (·.getD "")))).map
          String.trim).filter (fun s => decide (20 < s.length))).take 2)
    else []
  let pushed := bestSentences ++ commentSentences
  let finalContent :=
    if 2 ≤ pushed.length then String.intercalate ". " pushed
    else post.title ++ ". " ++ (sentences.head?.getD "")
  finalContent.trim ++ "."

/-- The observed outcome of the `Promise.race` between the completion
request and the 10-second timeout in `generateFakeGossip`: either the
completion resolves first with its (possibly null) message content, or the
call rejects — an API error or the timeout losing the race. -/
inductive FakeApiOutcome where
  | success (content : Option String)
  | failureOrTimeout
deriving Repr, DecidableEq

/-- The static templated fallback string of `generateFakeGossip`'s catch
block. -/
def fallbackGossip (topic : String) : String :=
  "Here\x27s some alternative gossip about " ++ topic ++ ": " ++
    "Rumor has it that there\x27s been some interesting developments, " ++
    "but we\x27re still waiting for more details to emerge..."

/-- Embeds `generateFakeGossip` of the main route, with the race outcome
explicit: on success return the trimmed content or `'Failed to generate a
story'` when the content is null or trims to the empty (falsy) string; on
any rejection — API error or 10-second timeout — the catch block returns
the templated fallback mentioning the topic.  The remaining arguments only
shape the prompt of the abstracted network call. -/
def generateFakeGossip (outcome : FakeApiOutcome) (realGossip topic : String)
    (topComments : List String) (isPartialMatch : Bool) : String :=
  match outcome with
  | .success content =>
      match content with
      | some c => if c.trim = "" then "Failed to generate a story" else c.trim
      | none => "Failed to generate a story"
  | .failureOrTimeout => fallbackGossip topic

/-- The de-duplication step opening `generateStories`: when the client sent
any recently seen ids, drop the posts whose derived story id is among them. -/
def filterFreshPosts (posts : List EnrichedPost) (recentStoryIds : List String) :
    List EnrichedPost :=
  if 0 < recentStoryIds.length then
    posts.filter (fun post => !(recentStoryIds.contains (storyIdOf post)))
  else posts

/-- The error message `generateStories` returns when every post was
filtered out as recently seen. -/
def noFreshGossipError (topic : String) : String :=
  "No fresh gossip found about \"" ++ topic ++
    "\". Try searching for a different celebrity or check back later for new tea! ☕️"

/-- The real story object built by `generateStories` from the best post. -/
def realStoryFor (bestPost : EnrichedPost) : Story :=
  { content := formatRedditGossip bestPost.toPost (asCommentObjects bestPost.topComments),
    isReal := true,
    redditUrl := some ("https://reddit.com" ++ bestPost.permalink),
    engagementScore := bestPost.engagementScore,
    isPartialMatch := bestPost.isPartialMatch,
    mainSubject := bestPost.mainSubject,
    subreddit := some bestPost.subreddit,
    storyId := storyIdOf bestPost }

/-- The fake story object built by `generateStories`: the generated (or
fallback) content, `isReal: false`, no reddit URL, an undefined engagement
score, and the id `` `fake_${topic}_${Date.now()}` ``. -/
def fakeStoryFor (now : ℕ) (outcome : FakeApiOutcome) (topic : String)
    (bestPost : EnrichedPost) : Story :=
  { content := generateFakeGossip outcome
      (formatRedditGossip bestPost.toPost (asCommentObjects bestPost.topComments))
      topic bestPost.topComments bestPost.isPartialMatch,
    isReal := false,
    redditUrl := none,
    engagementScore := none,
    isPartialMatch := bestPost.isPartialMatch,
    mainSubject := bestPost.mainSubject,
    subreddit := none,
    storyId := "fake_" ++ topic ++ "_" ++ toString now }

/-- The object `generateStories` resolves with.  Success carries the
shuffled stories, the index of the real one and the new ids to remember;
the all-posts-seen outcome carries only an error and a suggestion (the
other keys are absent, hence `none`). -/
structure GenResult where
  stories : Option (List Story)
  correctIndex : Option Int
  newStoryIds : Option (List String)
  error : Option String
  suggestion : Option String
deriving Repr, DecidableEq

/-- Embeds `generateStories` of the main route.  Explicit effect parameters:
`now` is `Date.now()` in milliseconds, `outcome` the fabrication-API race
result, `trendingSuggestion` the resolved `getTrendingTopic()`, and `js` the
random draws consumed by `shuffleArray`.  The body filters recently seen
posts, rescores and sorts the rest, and turns the best post into the real
and fake story pair, shuffled, with `correctIndex` found by
`findIndex(story => story.isReal)`. -/
def generateStories (now : ℕ) (outcome : FakeApiOutcome)
    (trendingSuggestion : String) (js : List ℕ) (posts : List EnrichedPost)
    (topic : String) (recentStoryIds : List String) : GenResult :=
  let freshPosts := filterFreshPosts posts recentStoryIds
  let scoredPosts := freshPosts.map (fun post =>
    (post, calculateEngagementScore (now : ℚ) post.toPost
      (asCommentObjects post.topComments)))
  let sorted := sortByScoreDesc scoredPosts
  match sorted.head? with
  | none =>
      { stories := none, correctIndex := none, newStoryIds := none,
        error := some (noFreshGossipError topic),
        suggestion := some trendingSuggestion }
  | some best =>
      let stories := [realStoryFor best.1, fakeStoryFor now outcome topic best.1]
      let shuffledStories := shuffleArray stories js
      { stories := some shuffledStories,
        correctIndex := some (jsFindIndex (fun story => story.isReal) shuffledStories),
        newStoryIds := some [(realStoryFor best.1).storyId],
        error := none, suggestion := none }

/-- The JSON body and status of a route response; keys absent from the
serialized body (JS `undefined`) are `none`. -/
structure ApiResponse where
  status : ℕ
  stories : Option (List Story)
  correctIndex : Option Int
  originalTopic : Option String
  mainSubject : Option String
  isPartialMatch : Option Bool
  newStoryIds : Option (List String)
  error : Option String
  suggestion : Option String
deriving Repr, DecidableEq

/-- Embeds the main route's `GET` handler after its successful network
fetches: `topic` is the query parameter (`none` for an absent or empty,
hence falsy, value), `trendingTitle` the r/popular title resolved when the
topic is missing (`none` when that fetch fails), `posts` the result of
`fetchRedditPosts`, and `recentStoryIds` the parsed `recentStories`
parameter.  With a topic and a non-empty post list the handler forwards the
destructured `stories`, `correctIndex` and `newStoryIds` of
`generateStories` in a default-status (200) JSON response. -/
def GET (now : ℕ) (outcome : FakeApiOutcome) (trendingSuggestion : String)
    (js : List ℕ) (trendingTitle : Option String) (topic : Option String)
    (posts : List EnrichedPost) (recentStoryIds : List String) : ApiResponse :=
  match topic with
  | none =>
      match trendingTitle with
      | some t =>
          { status := 400, stories := none, correctIndex := none,
            originalTopic := none, mainSubject := none, isPartialMatch := none,
            newStoryIds := none, error := some "Topic is required",
            suggestion := some t }
      | none =>
          { status := 400, stories := none, correctIndex := none,
            originalTopic := none, mainSubject := none, isPartialMatch := none,
            newStoryIds := none, error := some "Topic is required",
            suggestion := none }
  | some t =>
      if posts.length = 0 then
        { status := 404, stories := none, correctIndex := none,
          originalTopic := none, mainSubject := none, isPartialMatch := none,
          newStoryIds := none, error := some "No relevant posts found",
          suggestion := some "Try a different or broader topic" }
      else
        let r := generateStories now outcome trendingSuggestion js posts t recentStoryIds
        { status := 200, stories := r.stories, correctIndex := r.correctIndex,
          originalTopic := some t,
          mainSubject := posts.head?.map (·.mainSubject),
          isPartialMatch := posts.head?.map (·.isPartialMatch),
          newStoryIds := r.newStoryIds, error := none, suggestion := none }

end ApiRoute

namespace Client

/-- A persisted seen-story record `{ id, timestamp }` (milliseconds). -/
structure StoryItem where
  id : String
  timestamp : Int
deriving Repr, DecidableEq

/-- One hour in milliseconds, the client's de-duplication window. -/
def oneHourMs : Int := 60 * 60 * 1000

/-- The purge in the client's mount effect: keep exactly the parsed entries
with `item.timestamp > Date.now() - 60 * 60 * 1000`; the kept list is
written back to local storage. -/
def purgeRecentStories (now : Int) (parsed : List StoryItem) : List StoryItem :=
  parsed.filter (fun item => decide (now - oneHourMs < item.timestamp))

/-- The identifiers the client keeps in state after the purge and later
sends as the `recentStories` query parameter. -/
def initialRecentStories (now : Int) (parsed : List StoryItem) : List String :=
  (purgeRecentStories now parsed).map (·.id)

/-- The parsed JSON body of the server response as the client types it:
every field optional. -/
structure ClientGossipResponse where
  stories : Option (List ApiRoute.Story)
  correctIndex : Option Int
  newStoryIds : Option (List String)
  error : Option String
  suggestion : Option String
  message : Option String
deriving Repr, DecidableEq

/-- How `fetchGossip` leaves the component: either the catch block ran and
only the error message was recorded (the story state is untouched), or the
response was accepted and its stories and correct index stored. -/
inductive FetchOutcome where
  | fail (errorMessage : String)
  | accepted (stories : List ApiRoute.Story) (correctIndex : Int)
deriving Repr, DecidableEq

/-- JS truthiness of `data.correctIndex`: an absent index and the index `0`
are both falsy. -/
def jsTruthyIndex : Option Int → Bool
  | none => false
  | some n => decide (n ≠ 0)

/-- Embeds the response handling of the client's `fetchGossip`: a non-ok
response throws `data.error || data.message || 'Failed to fetch gossip'`;
an ok response is rejected as `'Invalid response from server'` whenever
`!data.stories || !data.correctIndex` — so also when `correctIndex` is the
falsy value `0` — and only otherwise stored. -/
def fetchGossipProcess (respOk : Bool) (data : ClientGossipResponse) : FetchOutcome :=
  if !respOk then
    .fail ((jsStrOr (jsStrOr data.error data.message)
      (some "Failed to fetch gossip")).getD "")
  else if !(data.stories.isSome && jsTruthyIndex data.correctIndex) then
    .fail "Invalid response from server"
  else
    .accepted (data.stories.getD []) (data.correctIndex.getD 0)

end Client

/-- A small concrete post used to instantiate theorems on concrete inputs. -/
def samplePost : Post :=
  { title := "celebrity spotted downtown", selftext := none, score := some 1,
    num_comments := some 2, upvoteRatio := none, total_awards_received := none,
    controversiality := none, created_utc := 0, permalink := "/r/x/1",
    subreddit := "x", id := "p1" }

/-- The sample post enriched the way `fetchRedditPosts` returns it. -/
def sampleEnrichedPost : ApiRoute.EnrichedPost :=
  { toPost := samplePost, engagementScore := some 5, topComments := [],
    mainSubject := "celebrity", isPartialMatch := false }

/-! ## Theorems -/

/-- On a two-element list the Fisher-Yates loop performs exactly one swap,
so the result is one of the two orderings whatever the drawn indices. -/
lemma shuffleArray_pair_cases (a b : α) (js : List ℕ) :
    shuffleArray [a, b] js = [a, b] ∨ shuffleArray [a, b] js = [b, a] := by
  match js with
  | [] => exact Or.inl rfl
  | 0 :: rest => exact Or.inr rfl
  | 1 :: rest => exact Or.inl rfl
  | (j + 2) :: rest => exact Or.inl rfl

/-- Helper records in `(realStoryFor bp).isReal`. -/
lemma realStoryFor_isReal (bp : ApiRoute.EnrichedPost) :
    (ApiRoute.realStoryFor bp).isReal = true := rfl

/-- Helper records in `(fakeStoryFor now o t bp).isReal`. -/
lemma fakeStoryFor_isReal (now : ℕ) (o : ApiRoute.FakeApiOutcome) (t : String)
    (bp : ApiRoute.EnrichedPost) :
    (ApiRoute.fakeStoryFor now o t bp).isReal = false := rfl

/-- Case analysis of `generateStories`: it returns either the
error-and-suggestion object (no best post survived) or the shuffled pair
built from some best post, with `correctIndex` computed by `findIndex`. -/
lemma generateStories_shape (now : ℕ) (outcome : ApiRoute.FakeApiOutcome)
    (sug : String) (js : List ℕ) (posts : List ApiRoute.EnrichedPost)
    (topic : String) (rids : List String) :
    (ApiRoute.generateStories now outcome sug js posts topic rids =
      { stories := none, correctIndex := none, newStoryIds := none,
        error := some (ApiRoute.noFreshGossipError topic), suggestion := some sug }) ∨
    ∃ bp : ApiRoute.EnrichedPost,
      ApiRoute.generateStories now outcome sug js posts topic rids =
        { stories := some (shuffleArray
            [ApiRoute.realStoryFor bp, ApiRoute.fakeStoryFor now outcome topic bp] js),
          correctIndex := some (jsFindIndex (fun story => story.isReal)
            (shuffleArray
              [ApiRoute.realStoryFor bp, ApiRoute.fakeStoryFor now outcome topic bp] js)),
          newStoryIds := some [(ApiRoute.realStoryFor bp).storyId],
          error := none, suggestion := none } := by
  simp only [ApiRoute.generateStories]
  cases h : (ApiRoute.sortByScoreDesc ((ApiRoute.filterFreshPosts posts rids).map
      (fun post => (post, ApiRoute.calculateEngagementScore (now : ℚ) post.toPost
        (ApiRoute.asCommentObjects post.topComments))))).head? with
  | none => exact Or.inl rfl
  | some best => exact Or.inr ⟨best.1, rfl⟩

/-- C3: the shuffle applied to a two-element story list returns each of the
two orderings for exactly one value of the single random draw
`j = Math.floor(Math.random() * 2) ∈ {0, 1}` — `j = 0` swaps, `j = 1`
leaves the order — so under a uniform draw each ordering has probability
one half. -/
theorem shuffleArray_pair_uniform {α : Type} (a b : α) (h : a ≠ b) :
    shuffleArray [a, b] [0] = [b, a] ∧ shuffleArray [a, b] [1] = [a, b] ∧
    ∀ j : ℕ, j < 2 →
      ((shuffleArray [a, b] [j] = [a, b] ↔ j = 1) ∧
       (shuffleArray [a, b] [j] = [b, a] ↔ j = 0)) := by
  refine ⟨rfl, rfl, ?_⟩
  intro j hj
  interval_cases j
  · constructor
    · rw [show shuffleArray [a, b] [0] = [b, a] from rfl]
      constructor
      · intro hh
        injection hh with h1 _
        exact absurd h1.symm h
      · intro hh
        exact absurd hh (by decide)
    · exact iff_of_true rfl rfl
  · constructor
    · exact iff_of_true rfl rfl
    · rw [show shuffleArray [a, b] [1] = [a, b] from rfl]
      constructor
      · intro hh
        injection hh with h1 _
        exact absurd h1 h
      · intro hh
        exact absurd hh (by decide)

/-- C3 witness: the uniformity statement instantiated at the concrete
two-element list `[0, 1]`. -/
theorem shuffleArray_pair_uniform_witness :
    shuffleArray [0, 1] [0] = [1, 0] ∧ shuffleArray [0, 1] [1] = [0, 1] ∧
    ∀ j : ℕ, j < 2 →
      ((shuffleArray [0, 1] [j] = [0, 1] ↔ j = 1) ∧
       (shuffleArray [0, 1] [j] = [1, 0] ↔ j = 0)) :=
  shuffleArray_pair_uniform 0 1 (by decide)

/-- Analysis of a list known to be one of the two orderings of a real and a
fake story: two entries, exactly one real, and `findIndex` locates it. -/
lemma story_pair_analysis (r f : ApiRoute.Story) (hr : r.isReal = true)
    (hf : f.isReal = false) (ss : List ApiRoute.Story)
    (hss : ss = [r, f] ∨ ss = [f, r]) :
    ss.length = 2 ∧ ss.countP (fun s => s.isReal) = 1 ∧
    ∃ k : ℕ, jsFindIndex (fun s => s.isReal) ss = (k : Int) ∧ k < 2 ∧
      (ss.get? k).map (fun s => s.isReal) = some true ∧
      ∀ m : ℕ, m < 2 → (ss.get? m).map (fun s => s.isReal) = some true → m = k := by
  rcases hss with hss | hss <;> subst hss
  · refine ⟨rfl, ?_, 0, ?_, by omega, ?_, ?_⟩
    · simp [List.countP_cons, hr, hf]
    · simp [jsFindIndex, List.findIdx?, hr]
    · simp [hr]
    · intro m hm hme
      interval_cases m
      · rfl
      · simp [hf] at hme
  · refine ⟨rfl, ?_, 1, ?_, by omega, ?_, ?_⟩
    · simp [List.countP_cons, hr, hf]
    · simp [jsFindIndex, List.findIdx?, hr, hf]
    · simp [hr]
    · intro m hm hme
      interval_cases m
      · simp [hf] at hme
      · rfl

/-- C1: whenever the main route's GET endpoint answers a topic request with
a stories array, that array holds exactly two stories, exactly one of them
has `isReal = true`, and the returned `correctIndex` is the index of that
real story in the returned array. -/
theorem GET_two_stories_correctIndex (now : ℕ) (outcome : ApiRoute.FakeApiOutcome)
    (sug : String) (js : List ℕ) (tt : Option String) (topic : String)
    (posts : List ApiRoute.EnrichedPost) (rids : List String)
    (ss : List ApiRoute.Story)
    (h : (ApiRoute.GET now outcome sug js tt (some topic) posts rids).stories = some ss) :
    ss.length = 2 ∧ ss.countP (fun s => s.isReal) = 1 ∧
    ∃ k : ℕ,
      (ApiRoute.GET now outcome sug js tt (some topic) posts rids).correctIndex
        = some (k : Int) ∧
      k < 2 ∧ (ss.get? k).map (fun s => s.isReal) = some true ∧
      ∀ m : ℕ, m < 2 → (ss.get? m).map (fun s => s.isReal) = some true → m = k := by
  simp only [ApiRoute.GET] at h ⊢
  by_cases hp : posts.length = 0
  · rw [if_pos hp] at h
    exact absurd h (by simp)
  · rw [if_neg hp] at h ⊢
    rcases generateStories_shape now outcome sug js posts topic rids with hs | ⟨bp, hs⟩
    · rw [hs] at h
      exact absurd h (by simp)
    · rw [hs] at h ⊢
      simp only [Option.some.injEq] at h
      obtain ⟨hlen, hcount, k, hk, hk2, hkr, huniq⟩ :=
        story_pair_analysis (ApiRoute.realStoryFor bp)
          (ApiRoute.fakeStoryFor now outcome topic bp)
          (realStoryFor_isReal bp) (fakeStoryFor_isReal now outcome topic bp) ss
          (h ▸ shuffleArray_pair_cases (ApiRoute.realStoryFor bp)
            (ApiRoute.fakeStoryFor now outcome topic bp) js)
      refine ⟨hlen, hcount, k, ?_, hk2, hkr, huniq⟩
      rw [h, hk]

/-- C1 witness: the endpoint evaluated at a concrete request carrying one
matching post. -/
theorem GET_two_stories_correctIndex_witness :
    ((ApiRoute.GET 0 .failureOrTimeout "s" [1] none (some "celebrity")
        [sampleEnrichedPost] []).stories.getD []).length = 2 ∧
    ((ApiRoute.GET 0 .failureOrTimeout "s" [1] none (some "celebrity")
        [sampleEnrichedPost] []).stories.getD []).countP (fun s => s.isReal) = 1 :=
  let c := GET_two_stories_correctIndex 0 .failureOrTimeout "s" [1] none "celebrity"
    [sampleEnrichedPost] []
    ((ApiRoute.GET 0 .failureOrTimeout "s" [1] none (some "celebrity")
        [sampleEnrichedPost] []).stories.getD []) rfl
  ⟨c.1, c.2.1⟩

/-- Helper: a list starts with itself followed by anything. -/
lemma listStartsWith_append [DecidableEq α] (n s : List α) :
    listStartsWith (n ++ s) n = true := by
  induction n with
  | nil => simp [listStartsWith]
  | cons a t ih => simp [listStartsWith, ih]

/-- Helper: every list contains the empty subsequence. -/
lemma listContainsSeq_nil [DecidableEq α] (hay : List α) :
    listContainsSeq hay [] = true := by
  cases hay with
  | nil => rfl
  | cons a t => simp [listContainsSeq, listStartsWith]

/-- Helper: a list contains any of its contiguous segments. -/
lemma listContainsSeq_append [DecidableEq α] (p n s : List α) :
    listContainsSeq (p ++ (n ++ s)) n = true := by
  induction p with
  | nil =>
    cases n with
    | nil => simpa using listContainsSeq_nil s
    | cons c m =>
      have h1 : listStartsWith (m ++ s) m = true := listStartsWith_append m s
      simp [listContainsSeq, listStartsWith, List.append_eq, h1]
  | cons a t ih => simp [listContainsSeq, ih]

/-- Helper records that the fake story generated after an API failure or
timeout carries exactly the fallback text. -/
lemma fakeStoryFor_content_failure (now : ℕ) (topic : String)
    (bp : ApiRoute.EnrichedPost) :
    (ApiRoute.fakeStoryFor now .failureOrTimeout topic bp).content
      = ApiRoute.fallbackGossip topic := rfl

/-- C4: when the fabrication API call errors or loses the 10-second timeout
race, `generateFakeGossip` does not throw but returns the static templated
fallback string, that string mentions the topic, and the endpoint still
returns a two-story response whose fake story's content is the fallback. -/
theorem generateFakeGossip_fallback (realGossip topic : String)
    (topComments : List String) (isPartialMatch : Bool) :
    ApiRoute.generateFakeGossip .failureOrTimeout realGossip topic topComments
        isPartialMatch = ApiRoute.fallbackGossip topic ∧
    jsIncludes (ApiRoute.fallbackGossip topic) topic = true ∧
    ∀ (now : ℕ) (sug : String) (js : List ℕ) (tt : Option String)
      (posts : List ApiRoute.EnrichedPost) (rids : List String)
      (ss : List ApiRoute.Story),
      (ApiRoute.GET now .failureOrTimeout sug js tt (some topic) posts rids).stories
          = some ss →
      ss.length = 2 ∧ ∃ s ∈ ss, s.isReal = false ∧
        s.content = ApiRoute.fallbackGossip topic := by
  refine ⟨rfl, ?_, ?_⟩
  · show listContainsSeq _ _ = true
    rw [show (ApiRoute.fallbackGossip topic).toList
        = ("Here\x27s some alternative gossip about ").toList ++
          (topic.toList ++ (": " ++
            ("Rumor has it that there\x27s been some interesting developments, " ++
             "but we\x27re still waiting for more details to emerge...")).toList) by
      simp [ApiRoute.fallbackGossip]]
    exact listContainsSeq_append _ _ _
  · intro now sug js tt posts rids ss h
    simp only [ApiRoute.GET] at h
    by_cases hp : posts.length = 0
    · rw [if_pos hp] at h
      exact absurd h (by simp)
    · rw [if_neg hp] at h
      rcases generateStories_shape now .failureOrTimeout sug js posts topic rids
        with hs | ⟨bp, hs⟩
      · rw [hs] at h
        exact absurd h (by simp)
      · rw [hs] at h
        simp only [Option.some.injEq] at h
        rcases h ▸ shuffleArray_pair_cases (ApiRoute.realStoryFor bp)
            (ApiRoute.fakeStoryFor now .failureOrTimeout topic bp) js
          with hss | hss <;> subst hss
        · exact ⟨rfl, ApiRoute.fakeStoryFor now .failureOrTimeout topic bp,
            by simp, fakeStoryFor_isReal now _ topic bp,
            fakeStoryFor_content_failure now topic bp⟩
        · exact ⟨rfl, ApiRoute.fakeStoryFor now .failureOrTimeout topic bp,
            by simp, fakeStoryFor_isReal now _ topic bp,
            fakeStoryFor_content_failure now topic bp⟩

/-- C4 witness: fallback behaviour evaluated at a concrete request whose
fabrication call timed out. -/
theorem generateFakeGossip_fallback_witness :
    ApiRoute.generateFakeGossip .failureOrTimeout "r" "celebrity" [] false
      = ApiRoute.fallbackGossip "celebrity" ∧
    ((ApiRoute.GET 0 .failureOrTimeout "s" [0] none (some "celebrity")
        [sampleEnrichedPost] []).stories.getD []).length = 2 :=
  let c := generateFakeGossip_fallback "r" "celebrity" [] false
  ⟨c.1, (c.2.2 0 "s" [0] none [sampleEnrichedPost] []
    ((ApiRoute.GET 0 .failureOrTimeout "s" [0] none (some "celebrity")
        [sampleEnrichedPost] []).stories.getD []) rfl).1⟩

/-- C9: when every fetched post's derived story id is among the recently
seen ids, `generateStories` returns only an error message and a suggested
topic — no stories, no correct index, no new ids — and the GET handler
forwards this as a status-200 JSON response whose `stories` and
`correctIndex` fields are absent (and whose own `error` key is likewise
absent, since the handler only destructures the three story fields). -/
theorem generateStories_allSeen_error (now : ℕ) (outcome : ApiRoute.FakeApiOutcome)
    (sug : String) (js : List ℕ) (tt : Option String) (topic : String)
    (posts : List ApiRoute.EnrichedPost) (rids : List String)
    (hne : posts ≠ [])
    (hall : ∀ p ∈ posts, ApiRoute.storyIdOf p ∈ rids) :
    ApiRoute.generateStories now outcome sug js posts topic rids =
      { stories := none, correctIndex := none, newStoryIds := none,
        error := some (ApiRoute.noFreshGossipError topic),
        suggestion := some sug } ∧
    (ApiRoute.GET now outcome sug js tt (some topic) posts rids).status = 200 ∧
    (ApiRoute.GET now outcome sug js tt (some topic) posts rids).stories = none ∧
    (ApiRoute.GET now outcome sug js tt (some topic) posts rids).correctIndex = none ∧
    (ApiRoute.GET now outcome sug js tt (some topic) posts rids).newStoryIds = none ∧
    (ApiRoute.GET now outcome sug js tt (some topic) posts rids).error = none := by
  obtain ⟨p, hp⟩ := List.exists_mem_of_ne_nil posts hne
  have hrids : 0 < rids.length := by
    have := hall p hp
    cases rids with
    | nil => exact absurd this (by simp)
    | cons a t => simp
  have hfresh : ApiRoute.filterFreshPosts posts rids = [] := by
    rw [ApiRoute.filterFreshPosts, if_pos hrids]
    rw [List.filter_eq_nil]
    intro a ha
    simp [List.contains, List.elem_eq_mem, hall a ha]
  have hgen : ApiRoute.generateStories now outcome sug js posts topic rids =
      { stories := none, correctIndex := none, newStoryIds := none,
        error := some (ApiRoute.noFreshGossipError topic),
        suggestion := some sug } := by
    simp only [ApiRoute.generateStories, hfresh]
    rfl
  have hlen : ¬posts.length = 0 := by
    cases posts with
    | nil => exact absurd rfl hne
    | cons a t => simp
  refine ⟨hgen, ?_, ?_, ?_, ?_, ?_⟩ <;>
    simp only [ApiRoute.GET, if_neg hlen, hgen]

/-- C9 witness: a concrete request whose single post was already seen. -/
theorem generateStories_allSeen_error_witness :
    ApiRoute.generateStories 0 .failureOrTimeout "s" [1] [sampleEnrichedPost]
        "celebrity" ["x_p1"] =
      { stories := none, correctIndex := none, newStoryIds := none,
        error := some (ApiRoute.noFreshGossipError "celebrity"),
        suggestion := some "s" } ∧
    (ApiRoute.GET 0 .failureOrTimeout "s" [1] none (some "celebrity")
        [sampleEnrichedPost] ["x_p1"]).status = 200 ∧
    (ApiRoute.GET 0 .failureOrTimeout "s" [1] none (some "celebrity")
        [sampleEnrichedPost] ["x_p1"]).stories = none :=
  let c := generateStories_allSeen_error 0 .failureOrTimeout "s" [1] none
    "celebrity" [sampleEnrichedPost] ["x_p1"] (by simp)
    (by intro p hp; simp at hp; subst hp; exact List.mem_singleton.mpr rfl)
  ⟨c.1, c.2.1, c.2.2.1⟩

/-- C2: the client's `fetchGossip` validation `!data.stories ||
!data.correctIndex` treats the server's legitimate `correctIndex = 0` (real
story listed first) as falsy: such a response is discarded as `'Invalid
response from server'`; a response is accepted exactly when it is ok, has a
stories array, and carries a nonzero `correctIndex` — and the server does
produce `correctIndex = 0` for the random draw `j = 1`. -/
theorem fetchGossip_rejects_correctIndex_zero :
    (∀ (data : Client.ClientGossipResponse) (ss : List ApiRoute.Story),
      data.stories = some ss → data.correctIndex = some 0 →
      Client.fetchGossipProcess true data = .fail "Invalid response from server") ∧
    (∀ (ok : Bool) (data : Client.ClientGossipResponse)
        (ss : List ApiRoute.Story) (ci : Int),
      Client.fetchGossipProcess ok data = .accepted ss ci →
      ok = true ∧ data.stories = some ss ∧ data.correctIndex = some ci ∧ ci ≠ 0) ∧
    (∀ (now : ℕ) (outcome : ApiRoute.FakeApiOutcome) (sug : String)
        (posts : List ApiRoute.EnrichedPost) (topic : String)
        (rids : List String) (ss : List ApiRoute.Story),
      (ApiRoute.generateStories now outcome sug [1] posts topic rids).stories
          = some ss →
      (ApiRoute.generateStories now outcome sug [1] posts topic rids).correctIndex
          = some 0) := by
  refine ⟨?_, ?_, ?_⟩
  · intro data ss h1 h2
    simp [Client.fetchGossipProcess, Client.jsTruthyIndex, h1, h2]
  · intro ok data ss ci h
    cases ok with
    | false => exact absurd h (by simp [Client.fetchGossipProcess])
    | true =>
      cases hst : data.stories with
      | none =>
        rw [Client.fetchGossipProcess] at h
        simp [hst] at h
      | some l =>
        cases hci : data.correctIndex with
        | none =>
          rw [Client.fetchGossipProcess] at h
          simp [hst, hci, Client.jsTruthyIndex] at h
        | some n =>
          by_cases hn : n = 0
          · subst hn
            rw [Client.fetchGossipProcess] at h
            simp [hst, hci, Client.jsTruthyIndex] at h
          · rw [Client.fetchGossipProcess] at h
            simp [hst, hci, Client.jsTruthyIndex, hn] at h
            obtain ⟨h1, h2⟩ := h
            exact ⟨rfl, congrArg some h1, congrArg some h2, h2 ▸ hn⟩
  · intro now outcome sug posts topic rids ss h
    rcases generateStories_shape now outcome sug [1] posts topic rids
      with hs | ⟨bp, hs⟩
    · rw [hs] at h
      exact absurd h (by simp)
    · rw [hs] at h ⊢
      have : shuffleArray [ApiRoute.realStoryFor bp,
          ApiRoute.fakeStoryFor now outcome topic bp] [1]
          = [ApiRoute.realStoryFor bp, ApiRoute.fakeStoryFor now outcome topic bp] := rfl
      simp only [this, jsFindIndex, List.findIdx?, realStoryFor_isReal, if_true]
      rfl

/-- C2 witness: the three parts evaluated on concrete data — a rejected
stories-with-index-zero response, an accepted index-one response, and a
concrete request for which the server returns `correctIndex = 0`. -/
theorem fetchGossip_rejects_correctIndex_zero_witness :
    Client.fetchGossipProcess true
        { stories := some [], correctIndex := some 0, newStoryIds := none,
          error := none, suggestion := none, message := none }
      = .fail "Invalid response from server" ∧
    ((true : Bool) = true ∧
      (some [] : Option (List ApiRoute.Story)) = some [] ∧
      (some 1 : Option Int) = some 1 ∧ (1 : Int) ≠ 0) ∧
    (ApiRoute.generateStories 0 .failureOrTimeout "s" [1] [sampleEnrichedPost]
        "celebrity" []).correctIndex = some 0 :=
  ⟨fetchGossip_rejects_correctIndex_zero.1
      { stories := some [], correctIndex := some 0, newStoryIds := none,
        error := none, suggestion := none, message := none } [] rfl rfl,
   fetchGossip_rejects_correctIndex_zero.2.1 true
      { stories := some [], correctIndex := some 1, newStoryIds := none,
        error := none, suggestion := none, message := none } [] 1 rfl,
   fetchGossip_rejects_correctIndex_zero.2.2 0 .failureOrTimeout "s"
      [sampleEnrichedPost] "celebrity" []
      ((ApiRoute.generateStories 0 .failureOrTimeout "s" [1] [sampleEnrichedPost]
        "celebrity" []).stories.getD []) rfl⟩

/-- C5: a fetched post passes the main route's relevance filter exactly
when its lowercased title-plus-selftext contains at least one lowercased
space-separated query token AND it either contains a gossip-indicator
keyword or is substantial (selftext over 100 characters or more than 10
comments); a post containing no query token is excluded — by the earlier
route's token-only filter as well. -/
theorem searchRedditFilter_characterization (query : String)
    (allPosts : List Post) (post : Post) :
    (post ∈ ApiRoute.searchRedditFilter query allPosts ↔
      post ∈ allPosts ∧ ApiRoute.containsQueryToken query post = true ∧
        (ApiRoute.containsGossipIndicator post = true ∨
         ApiRoute.hasSubstantialContent post = true)) ∧
    (ApiRoute.containsQueryToken query post = false →
      post ∉ ApiRoute.searchRedditFilter query allPosts) ∧
    (ApiRoute.containsQueryToken query post = false →
      post ∉ RedditRoute.searchRedditFilter query allPosts) := by
  refine ⟨?_, ?_, ?_⟩
  · rw [ApiRoute.searchRedditFilter, List.mem_filter]
    simp [Bool.and_eq_true, Bool.or_eq_true]
  · intro hf hmem
    rw [ApiRoute.searchRedditFilter, List.mem_filter] at hmem
    rw [hf] at hmem
    exact absurd hmem.2 (by simp)
  · intro hf hmem
    rw [RedditRoute.searchRedditFilter, List.mem_filter] at hmem
    rw [hf] at hmem
    exact absurd hmem.2 (by simp)

/-- C5 witness: the sample post passes the filter for a matching query and
is excluded by both filters for a query sharing no token with it. -/
theorem searchRedditFilter_characterization_witness :
    samplePost ∈ ApiRoute.searchRedditFilter "celebrity" [samplePost] ∧
    samplePost ∉ ApiRoute.searchRedditFilter "zzz" [samplePost] ∧
    samplePost ∉ RedditRoute.searchRedditFilter "zzz" [samplePost] :=
  ⟨(searchRedditFilter_characterization "celebrity" [samplePost] samplePost).1.mpr
      ⟨List.mem_singleton.mpr rfl, rfl, Or.inl rfl⟩,
   (searchRedditFilter_characterization "zzz" [samplePost] samplePost).2.1 rfl,
   (searchRedditFilter_characterization "zzz" [samplePost] samplePost).2.2 rfl⟩

/-- C6: with every other input held fixed, both versions of
`calculateEngagementScore` are monotonically non-decreasing in the post's
vote count. -/
theorem engagementScore_monotone_in_votes :
    (∀ (now : ℚ) (post : Post) (comments : List Comment) (s1 s2 : ℚ), s1 ≤ s2 →
      ApiRoute.calculateEngagementScore now { post with score := some s1 } comments ≤
      ApiRoute.calculateEngagementScore now { post with score := some s2 } comments) ∧
    (∀ (post : Post) (comments : List RedditRoute.RComment) (s1 s2 : ℚ), s1 ≤ s2 →
      RedditRoute.calculateEngagementScore { post with score := some s1 } comments ≤
      RedditRoute.calculateEngagementScore { post with score := some s2 } comments) := by
  constructor
  · intro now post comments s1 s2 h
    simp only [ApiRoute.calculateEngagementScore, ApiRoute.upvoteScoreComponent,
      ApiRoute.commentCountComponent, ApiRoute.controversyBonusComponent,
      ApiRoute.awardsComponent, ApiRoute.freshnessComponent, ApiRoute.hoursOld,
      Option.getD_some]
    linarith
  · intro post comments s1 s2 h
    simp only [RedditRoute.calculateEngagementScore, Option.getD_some]
    linarith

/-- C6 witness: monotonicity evaluated at the sample post for vote counts
one and two. -/
theorem engagementScore_monotone_in_votes_witness :
    ApiRoute.calculateEngagementScore 0 { samplePost with score := some 1 } [] ≤
      ApiRoute.calculateEngagementScore 0 { samplePost with score := some 2 } [] ∧
    RedditRoute.calculateEngagementScore { samplePost with score := some 1 } [] ≤
      RedditRoute.calculateEngagementScore { samplePost with score := some 2 } [] :=
  ⟨engagementScore_monotone_in_votes.1 0 samplePost [] 1 2 (by norm_num),
   engagementScore_monotone_in_votes.2 samplePost [] 1 2 (by norm_num)⟩

/-- C7 counterexample: the main route's `calculateEngagementScore` reads the
clock through `hoursOld` — the same post and comments scored at time 0 and
one hour later (3600000 ms) give different values (205 versus 203), so the
score is not a pure function of its post and comments arguments alone. -/
theorem engagementScore_not_time_independent :
    ApiRoute.calculateEngagementScore 0 samplePost [] ≠
      ApiRoute.calculateEngagementScore 3600000 samplePost [] := by
  simp only [ApiRoute.calculateEngagementScore, ApiRoute.upvoteScoreComponent,
    ApiRoute.commentCountComponent, ApiRoute.controversyBonusComponent,
    ApiRoute.awardsComponent, ApiRoute.freshnessComponent, ApiRoute.hoursOld,
    ApiRoute.commentQualityComponent, ApiRoute.qualifyingComments, samplePost]
  norm_num [max_def]

/-- C7 (amended): `calculateEngagementScore` is a deterministic function of
the post, the comments and the current clock reading, and the clock enters
only through the freshness component — scores taken at two times differ by
exactly the freshness difference. -/
theorem engagementScore_determined_by_inputs_and_clock (now1 now2 : ℚ)
    (post : Post) (comments : List Comment) :
    ApiRoute.calculateEngagementScore now1 post comments -
      ApiRoute.calculateEngagementScore now2 post comments =
    ApiRoute.freshnessComponent now1 post - ApiRoute.freshnessComponent now2 post := by
  simp only [ApiRoute.calculateEngagementScore]
  ring

/-- C8: an entry recorded more than one hour before the current time is
removed by the client's purge; if no entry carries the same id with a fresh
timestamp, that id is excluded from the `recentStories` identifiers, so a
post bearing it always survives the de-duplication filter of
`generateStories`. -/
theorem recentStories_purge (now : Int) (parsed : List Client.StoryItem)
    (item : Client.StoryItem) (hmem : item ∈ parsed)
    (hold : item.timestamp < now - Client.oneHourMs) :
    item ∉ Client.purgeRecentStories now parsed ∧
    ((∀ other ∈ parsed, other.id = item.id →
        other.timestamp ≤ now - Client.oneHourMs) →
      item.id ∉ Client.initialRecentStories now parsed ∧
      ∀ (posts : List ApiRoute.EnrichedPost) (post : ApiRoute.EnrichedPost),
        post ∈ posts → ApiRoute.storyIdOf post = item.id →
        post ∈ ApiRoute.filterFreshPosts posts
          (Client.initialRecentStories now parsed)) := by
  constructor
  · intro hin
    rw [Client.purgeRecentStories, List.mem_filter] at hin
    have h2 := hin.2
    simp only [decide_eq_true_eq] at h2
    omega
  · intro hall
    have hid : item.id ∉ Client.initialRecentStories now parsed := by
      intro hin
      rw [Client.initialRecentStories, List.mem_map] at hin
      obtain ⟨other, ho, hoid⟩ := hin
      rw [Client.purgeRecentStories, List.mem_filter] at ho
      have h1 := hall other ho.1 hoid
      have h2 := ho.2
      simp only [decide_eq_true_eq] at h2
      omega
    refine ⟨hid, ?_⟩
    intro posts post hpost hpid
    rw [ApiRoute.filterFreshPosts]
    by_cases hl : 0 < (Client.initialRecentStories now parsed).length
    · rw [if_pos hl, List.mem_filter]
      refine ⟨hpost, ?_⟩
      simp only [Bool.not_eq_true']
      rw [hpid]
      simp [List.contains, List.elem_eq_mem, hid]
    · rw [if_neg hl]
      exact hpost

/-- C8 witness: a one-entry store two hours old is purged, its id is not
sent, and the matching sample post survives de-duplication. -/
theorem recentStories_purge_witness :
    ({ id := "x_p1", timestamp := 0 } : Client.StoryItem) ∉
      Client.purgeRecentStories 7200000 [{ id := "x_p1", timestamp := 0 }] ∧
    "x_p1" ∉ Client.initialRecentStories 7200000 [{ id := "x_p1", timestamp := 0 }] ∧
    sampleEnrichedPost ∈ ApiRoute.filterFreshPosts [sampleEnrichedPost]
      (Client.initialRecentStories 7200000 [{ id := "x_p1", timestamp := 0 }]) :=
  let c := recentStories_purge 7200000 [{ id := "x_p1", timestamp := 0 }]
    { id := "x_p1", timestamp := 0 } (List.mem_singleton.mpr rfl) (by norm_num [Client.oneHourMs])
  let c2 := c.2 (by
    intro other ho hoid
    rw [List.mem_singleton] at ho
    subst ho
    norm_num [Client.oneHourMs])
  ⟨c.1, c2.1, c2.2 [sampleEnrichedPost] sampleEnrichedPost
    (List.mem_singleton.mpr rfl) rfl⟩

/-- C10: `extractMainSubject` is not total — on the topic `"a  b"`, which
contains no known figure and whose split on single spaces contains an empty
word, evaluating `word[0].toUpperCase()` on that empty word throws a
`TypeError` instead of returning a subject string. -/
theorem extractMainSubject_empty_word_typeError :
    knownFigures.all
        (fun figure => !(jsIncludes (jsToLower "a  b") figure)) = true ∧
    ("" ∈ jsSplitOnSpace "a  b") ∧
    extractMainSubject "a  b" = .error .typeError := by
  refine ⟨rfl, ?_, rfl⟩
  show ("" : String) ∈ ["a", "", "b"]
  simp

end GossAIP
